import Mathlib

/-!
Shallow embedding of the aws-secrets-manager-fetcher CLI (src/main.py).

The program is straight-line interactive code.  We model it as pure
functions over an explicit environment:

* the remote Secrets Manager is modelled by `ServiceCall` (the outcome of
  one `get_secret_value` call) and by a per-region list of result pages
  for the `list_secrets` paginator;
* `print` accumulates into an output `String` (each `print s` appends
  `s` followed by a newline; the prompt of `input(p)` appends `p` with no
  newline); `input()` pops a line from an explicit stdin list, raising
  EOFError when exhausted;
* the file system is a map `String -> Option String`; `clear_screen`
  is recorded as a boolean effect flag;
* uncaught Python runtime errors (KeyError from a missing response key,
  ValueError from `int()`, IndexError from list indexing, EOFError) are
  the `Except.error` outcomes of a run;
* the Python stdlib `json` module is abstract: `json.loads` is any
  function `String -> Option J` (`none` models `JSONDecodeError`) and
  `json.dumps(v, indent=4)` is any function `J -> String`.

`int()` is modelled for ASCII input (optional surrounding whitespace,
one optional sign, a nonempty digit run); underscore digit separators
and non-ASCII digits are not modelled.  List indexing follows Python
semantics including negative indices.
-/

/-- One entry of a `list_secrets` result page; only the `Name` key is read. -/
structure Secret where
  Name : String
deriving DecidableEq

/-- The response of a successful `get_secret_value` call.  The
`SecretString` key may be absent (a binary-only secret), in which case
the subscript access in `fetch_secret` raises KeyError. -/
structure GetSecretResponse where
  SecretString : Option String
deriving DecidableEq

/-- Outcome of the remote `get_secret_value` call: success with a
response, or a `botocore` ClientError carrying an error code and the
string rendering of the exception. -/
inductive ServiceCall where
  | success (resp : GetSecretResponse)
  | clientError (code : String) (msg : String)
deriving DecidableEq

/-- Uncaught Python runtime errors that can terminate a run abnormally. -/
inductive PyError where
  | keyError
  | valueError
  | indexError
  | eofError
deriving DecidableEq

/-- Observable result of a normal (non-crashing) run: everything printed
to stdout, the final file system, and whether the screen was cleared. -/
structure RunResult where
  output : String
  fs : String → Option String
  screenCleared : Bool

/-- Pop one line from stdin; `input()` on exhausted stdin raises EOFError. -/
def readLine (stdin : List String) : Except PyError (String × List String) :=
  match stdin with
  | [] => Except.error PyError.eofError
  | l :: rest => Except.ok (l, rest)

/-- Python truthiness of an optional string: `None` and the empty string
are falsy.  Used for `if not region_name:` and `if args.output:`. -/
def optTruthy : Option String → Bool
  | none => false
  | some s => s ≠ ""

/-- Message printed when the service reports ResourceNotFoundException. -/
def not_found_msg (secret_name : String) : String :=
  "ERROR: Secret \x27" ++ secret_name ++ "\x27 not found."

/-- Message printed for any other ClientError; `msg` stands for `str(e)`. -/
def fetch_err_msg (secret_name msg : String) : String :=
  "ERROR: An error occurred while fetching secret \x27" ++ secret_name ++ "\x27: " ++ msg

/-- Embedding of `fetch_secret(secret_name, region_name)`.  The `svc`
argument is the outcome of the remote call issued by the client that the
function builds for `region_name`.  Returns the value returned to the
caller together with the lines the function printed, or an uncaught
error.  Only ClientError is caught; a success response without the
`SecretString` key raises KeyError. -/
def fetch_secret (secret_name region_name : String) (svc : ServiceCall) :
    Except PyError (Option String × List String) :=
  match svc with
  | ServiceCall.success resp =>
    match resp.SecretString with
    | some s => Except.ok (some s, [])
    | none => Except.error PyError.keyError
  | ServiceCall.clientError code msg =>
    if code = "ResourceNotFoundException" then
      Except.ok (none, [not_found_msg secret_name])
    else
      Except.ok (none, [fetch_err_msg secret_name msg])

/-- Embedding of `list_all_secrets(region_name)`: the paginator yields
`pages`, each page holding a `SecretList`; the loop extends an
accumulator with each page and the result is the `Name` of every entry. -/
def list_all_secrets (pages : List (List Secret)) : List String :=
  (pages.foldl (fun secrets page => secrets ++ page) []).map Secret.Name

/-- Embedding of `write_to_file(secret_value, output_file)`: opening the
file with mode "w" truncates or creates it, and its entire contents
become exactly `secret_value` (no trailing newline is appended). -/
def write_to_file (secret_value output_file : String)
    (fs : String → Option String) : String → Option String :=
  fun p => if p = output_file then some secret_value else fs p

/-- Reading a file back from the modelled file system. -/
def read_file (fs : String → Option String) (p : String) : Option String :=
  fs p

/-- Python `int(s)` on ASCII input: strip surrounding whitespace, allow
one leading sign, then a nonempty run of decimal digits; anything else
raises ValueError (`none`). -/
def isSpaceChar (c : Char) : Bool :=
  c = ' ' ∨ c = '\t' ∨ c = '\n' ∨ c = '\r' ∨ c = '\x0b' ∨ c = '\x0c'

/-- Drop leading whitespace characters. -/
def dropSpaces : List Char → List Char
  | [] => []
  | c :: cs => if isSpaceChar c then dropSpaces cs else c :: cs

/-- Strip whitespace from both ends. -/
def py_strip (l : List Char) : List Char :=
  ((dropSpaces l).reverse |> dropSpaces).reverse

/-- Is `c` an ASCII decimal digit. -/
def isDigitChar (c : Char) : Bool :=
  48 ≤ c.toNat ∧ c.toNat ≤ 57

/-- Decimal value of a digit run. -/
def digitsToNat (l : List Char) : Nat :=
  l.foldl (fun n c => 10 * n + (c.toNat - 48)) 0

/-- Model of the Python builtin `int` applied to a string. -/
def py_int (s : String) : Option Int :=
  match py_strip s.toList with
  | [] => none
  | c :: rest =>
    let signed : Bool × List Char :=
      if c = '-' then (true, rest)
      else if c = '+' then (false, rest)
      else (false, c :: rest)
    if signed.2 ≠ [] ∧ signed.2.all isDigitChar then
      some (if signed.1 then -(digitsToNat signed.2 : Int) else (digitsToNat signed.2 : Int))
    else none

/-- Python index adjustment: a negative index counts from the end. -/
def py_wrap (len : Nat) (i : Int) : Int :=
  if i < 0 then i + len else i

/-- Python list subscription `l[i]`: a negative index counts from the
end; an index out of `[-len, len)` raises IndexError.  The inner `none`
branch is unreachable under the guard. -/
def py_index (l : List String) (i : Int) : Except PyError String :=
  if 0 ≤ py_wrap l.length i ∧ py_wrap l.length i < (l.length : Int) then
    match l.get? (py_wrap l.length i).toNat with
    | some x => Except.ok x
    | none => Except.error PyError.indexError
  else
    Except.error PyError.indexError

/-- The selection step of `main`: `int(input(...)) - 1` then subscription
into the name list.  A non-numeric entry raises ValueError; an
out-of-range index raises IndexError. -/
def select_secret (names : List String) (sel : String) : Except PyError String :=
  match py_int sel with
  | none => Except.error PyError.valueError
  | some n => py_index names (n - 1)

/-- Render a list of printed lines, each terminated by a newline. -/
def printLines (ls : List String) : String :=
  String.join (ls.map (fun l => l ++ "\n"))

/-- The numbered menu printed by `main`: one line `i. name` per secret,
numbered from 1 in list order. -/
def menu (names : List String) : String :=
  String.join (names.enum.map (fun p => Nat.repr (p.1 + 1) ++ ". " ++ p.2 ++ "\n"))

/-- Everything printed between entry into the listing phase and the
selection: the menu header, the menu, and the selection prompt. -/
def pre_fetch_output (out0 : String) (names : List String) : String :=
  out0 ++ "Available Secrets:\n" ++ menu names
    ++ "Enter the number of the secret you want to fetch: "

/-- The `try json.loads / except JSONDecodeError` branch of display
mode: the pretty-printing of the parsed value when `v` parses as JSON,
and `v` unchanged otherwise. -/
def json_render {J : Type} (loads : String → Option J) (dumps4 : J → String)
    (v : String) : String :=
  match loads v with
  | some j => dumps4 j
  | none => v

/-- The display-mode tail of `main`: pretty-print the value if
`json.loads` succeeds, else print it raw, both under the header line;
then block on the press-enter prompt and clear the screen. -/
def display_secret {J : Type} (loads : String → Option J) (dumps4 : J → String)
    (v out0 : String) (stdin : List String) (fs0 : String → Option String) :
    Except PyError RunResult :=
  let out1 := out0 ++ "\nFetched Secret Value:\n" ++ json_render loads dumps4 v ++ "\n"
    ++ "\nPress Enter to clear the screen..."
  match readLine stdin with
  | Except.error e => Except.error e
  | Except.ok _ => Except.ok { output := out1, fs := fs0, screenCleared := true }

/-- The part of `main` from the fetch onwards, for an already selected
secret name: fetch, then either exit on failure, write to the output
file in write mode, or display in display mode. -/
def after_selection {J : Type} (loads : String → Option J) (dumps4 : J → String)
    (args_output : Option String) (getSecret_r : String → ServiceCall)
    (fs0 : String → Option String) (region secret_name : String)
    (stdin : List String) (out0 : String) : Except PyError RunResult :=
  match fetch_secret secret_name region (getSecret_r secret_name) with
  | Except.error e => Except.error e
  | Except.ok fetched =>
    let out1 := out0 ++ printLines fetched.2
    match fetched.1 with
    | some v =>
      if optTruthy args_output then
        Except.ok { output := out1 ++ "Secret value fetched and stored in "
                      ++ args_output.getD "" ++ " successfully.\n",
                    fs := write_to_file v (args_output.getD "") fs0,
                    screenCleared := false }
      else
        display_secret loads dumps4 v out1 stdin fs0
    | none =>
      Except.ok { output := out1 ++ "Exiting program.\n", fs := fs0,
                  screenCleared := false }

/-- The body of `main` after region resolution: list the secrets for the
resolved region (`pages_r` are the paginator pages, `getSecret_r` the
remote behaviour of `get_secret_value` in that region), print the menu,
read and convert the selection, subscript, then `after_selection`. -/
def main_with_region {J : Type} (loads : String → Option J) (dumps4 : J → String)
    (args_output : Option String) (pages_r : List (List Secret))
    (getSecret_r : String → ServiceCall) (fs0 : String → Option String)
    (region : String) (stdin : List String) (out0 : String) :
    Except PyError RunResult :=
  let secret_names := list_all_secrets pages_r
  match readLine stdin with
  | Except.error e => Except.error e
  | Except.ok (sel, stdin1) =>
    match select_secret secret_names sel with
    | Except.error e => Except.error e
    | Except.ok secret_name =>
      after_selection loads dumps4 args_output getSecret_r fs0 region
        secret_name stdin1 (pre_fetch_output out0 secret_names)

/-- The run environment of one invocation. -/
structure Env where
  aws_default_region : Option String
  args_output : Option String
  stdin : List String
  pages : String → List (List Secret)
  getSecret : String → String → ServiceCall

/-- Embedding of `main()`: resolve the region from the environment
variable, falling back to the interactive prompt when it is unset or
empty, then run the rest of the program with that region. -/
def main_run {J : Type} (loads : String → Option J) (dumps4 : J → String)
    (env : Env) (fs0 : String → Option String) : Except PyError RunResult :=
  if optTruthy env.aws_default_region then
    main_with_region loads dumps4 env.args_output
      (env.pages (env.aws_default_region.getD ""))
      (fun n => env.getSecret n (env.aws_default_region.getD ""))
      fs0 (env.aws_default_region.getD "") env.stdin ""
  else
    match readLine env.stdin with
    | Except.error e => Except.error e
    | Except.ok (l, rest) =>
      main_with_region loads dumps4 env.args_output (env.pages l)
        (fun n => env.getSecret n l) fs0 l rest "Enter the Region Name: "

/-- Trivial stand-ins for the abstract json functions, for concrete runs. -/
def loads0 : String → Option Nat := fun _ => none

/-- Trivial pretty-printer stand-in for concrete runs. -/
def dumps0 : Nat → String := fun _ => ""

/-- The empty file system. -/
def fs_empty : String → Option String := fun _ => none

/-- A concrete json-loads stand-in recognising one string. -/
def loads1 : String → Option Nat := fun s => if s = "json-secret" then some 7 else none

/-- A concrete pretty-printer stand-in. -/
def dumps1 : Nat → String := fun n => "pretty " ++ Nat.repr n

/-- Concrete run environment in which the remote service holds zero
secrets and the operator enters a numeric selection. -/
def env_zero_secrets : Env where
  aws_default_region := some "eu-west-1"
  args_output := none
  stdin := ["1"]
  pages := fun _ => []
  getSecret := fun _ _ => ServiceCall.clientError "X" "m"

/-- Concrete run environment with two listed secrets in which the
operator enters the selection `0`, in write mode. -/
def env_select_zero : Env where
  aws_default_region := some "eu-west-1"
  args_output := some "out.txt"
  stdin := ["0"]
  pages := fun _ => [[⟨"alpha"⟩, ⟨"beta"⟩]]
  getSecret := fun n _ =>
    if n = "beta" then ServiceCall.success ⟨some "secret-of-beta"⟩
    else ServiceCall.clientError "X" "m"

/-- Concrete run environment with a second zero-secret layout: one page
that is itself empty, write mode, a different region and selection. -/
def env_zero_secrets2 : Env where
  aws_default_region := some "us-east-1"
  args_output := some "o.txt"
  stdin := ["3"]
  pages := fun _ => [[]]
  getSecret := fun _ _ => ServiceCall.clientError "X" "m"

/-- Concrete run environment whose region environment variable is set. -/
def env_region_set : Env where
  aws_default_region := some "eu-west-1"
  args_output := none
  stdin := ["1"]
  pages := fun _ => [[⟨"a"⟩]]
  getSecret := fun _ _ => ServiceCall.clientError "X" "m"

/-- Concrete run environment whose region environment variable is unset,
with the region supplied on stdin. -/
def env_region_unset : Env where
  aws_default_region := none
  args_output := none
  stdin := ["us-west-2", "1"]
  pages := fun _ => [[⟨"a"⟩]]
  getSecret := fun _ _ => ServiceCall.clientError "X" "m"

/-!
Theorems.  Each claim-level theorem carries its claim id in its doc
comment; shared helper lemmas precede them.
-/

/-- Helper: the selection-onwards unfolding of `main_with_region` when a
stdin line is available. -/
theorem main_with_region_cons {J : Type} (loads : String → Option J)
    (dumps4 : J → String) (args_output : Option String)
    (pages_r : List (List Secret)) (getSecret_r : String → ServiceCall)
    (fs0 : String → Option String) (region sel : String)
    (rest : List String) (out0 : String) :
    main_with_region loads dumps4 args_output pages_r getSecret_r fs0 region
        (sel :: rest) out0
      = match select_secret (list_all_secrets pages_r) sel with
        | Except.error e => Except.error e
        | Except.ok secret_name =>
          after_selection loads dumps4 args_output getSecret_r fs0 region
            secret_name rest (pre_fetch_output out0 (list_all_secrets pages_r)) := rfl

/-- Helper: folding list append over pages appends their flattening. -/
theorem foldl_append_eq_append_flatten (pages : List (List Secret)) (acc : List Secret) :
    pages.foldl (fun secrets page => secrets ++ page) acc = acc ++ pages.flatten := by
  induction pages generalizing acc with
  | nil => simp
  | cons p ps ih => simp [ih, List.append_assoc]

/-- Helper: subscription with an index outside `[-len, len)` raises
IndexError. -/
theorem py_index_err (l : List String) (i : Int)
    (h : i < -(l.length : Int) ∨ (l.length : Int) ≤ i) :
    py_index l i = Except.error PyError.indexError := by
  have hc : ¬(0 ≤ py_wrap l.length i ∧ py_wrap l.length i < (l.length : Int)) := by
    unfold py_wrap; split <;> omega
  unfold py_index
  rw [if_neg hc]

/-- Helper: subscription with a nonnegative in-range index returns the
element at that position. -/
theorem py_index_ok_nonneg (l : List String) (i : Int) (h0 : 0 ≤ i)
    (h1 : i < (l.length : Int)) :
    ∃ hh : i.toNat < l.length, py_index l i = Except.ok (l.get ⟨i.toNat, hh⟩) := by
  have hw : py_wrap l.length i = i := by unfold py_wrap; split <;> omega
  have hlt : i.toNat < l.length := by omega
  have hcond : 0 ≤ py_wrap l.length i ∧ py_wrap l.length i < (l.length : Int) := by
    rw [hw]; exact ⟨h0, h1⟩
  refine ⟨hlt, ?_⟩
  unfold py_index
  rw [if_pos hcond, hw, List.get?_eq_get hlt]

/-- Helper: subscription with a negative in-range index counts from the
end of the list. -/
theorem py_index_ok_neg (l : List String) (i : Int) (h0 : -(l.length : Int) ≤ i)
    (h1 : i < 0) :
    ∃ hh : (i + (l.length : Int)).toNat < l.length,
      py_index l i = Except.ok (l.get ⟨(i + (l.length : Int)).toNat, hh⟩) := by
  have hw : py_wrap l.length i = i + (l.length : Int) := by unfold py_wrap; split <;> omega
  have hlt : (i + (l.length : Int)).toNat < l.length := by omega
  have hcond : 0 ≤ py_wrap l.length i ∧ py_wrap l.length i < (l.length : Int) := by
    rw [hw]; omega
  refine ⟨hlt, ?_⟩
  unfold py_index
  rw [if_pos hcond, hw, List.get?_eq_get hlt]

/-- Helper: a numeric selection reduces to Python subscription at the
entered number minus one. -/
theorem select_secret_some (names : List String) (sel : String) (n : Int)
    (h : py_int sel = some n) :
    select_secret names sel = py_index names (n - 1) := by
  unfold select_secret
  rw [h]

/-- Helper: a non-numeric selection raises ValueError. -/
theorem select_secret_none (names : List String) (sel : String)
    (h : py_int sel = none) :
    select_secret names sel = Except.error PyError.valueError := by
  unfold select_secret
  rw [h]

/-- Helper: appending the rendering of zero printed lines is the identity. -/
theorem append_printLines_nil (s : String) : s ++ printLines [] = s := by
  show s ++ "" = s
  exact String.append_empty s

/-- Helper: `after_selection` when the remote call succeeds with a
string payload: write mode stores the value, display mode shows it. -/
theorem after_selection_success {J : Type} (loads : String → Option J)
    (dumps4 : J → String) (args_output : Option String)
    (getSecret_r : String → ServiceCall) (fs0 : String → Option String)
    (region name : String) (stdin : List String) (out0 v : String)
    (hsvc : getSecret_r name = ServiceCall.success ⟨some v⟩) :
    after_selection loads dumps4 args_output getSecret_r fs0 region name stdin out0
      = if optTruthy args_output then
          Except.ok { output := out0 ++ "Secret value fetched and stored in "
                        ++ args_output.getD "" ++ " successfully.\n",
                      fs := write_to_file v (args_output.getD "") fs0,
                      screenCleared := false }
        else display_secret loads dumps4 v out0 stdin fs0 := by
  unfold after_selection
  rw [hsvc]
  show (if optTruthy args_output = true then
          Except.ok { output := out0 ++ printLines [] ++ "Secret value fetched and stored in "
                        ++ args_output.getD "" ++ " successfully.\n",
                      fs := write_to_file v (args_output.getD "") fs0,
                      screenCleared := false }
        else display_secret loads dumps4 v (out0 ++ printLines []) stdin fs0) = _
  rw [append_printLines_nil]

/-- Helper: the display branch on an available acknowledgment line. -/
theorem display_secret_cons {J : Type} (loads : String → Option J)
    (dumps4 : J → String) (v out0 ack : String) (rest : List String)
    (fs0 : String → Option String) :
    display_secret loads dumps4 v out0 (ack :: rest) fs0
      = Except.ok { output := out0 ++ "\nFetched Secret Value:\n"
                      ++ json_render loads dumps4 v ++ "\n"
                      ++ "\nPress Enter to clear the screen...",
                    fs := fs0, screenCleared := true } := rfl

/-- C1: for every secret name and region, a successful remote call with a
string payload returns that payload exactly as returned (and prints
nothing); a ClientError of any code returns `none`, the two failure
kinds differing only in the single printed message. -/
theorem fetch_secret_contract (secret_name region_name s code msg : String) :
    fetch_secret secret_name region_name (ServiceCall.success ⟨some s⟩)
      = Except.ok (some s, ([] : List String))
    ∧ (fetch_secret secret_name region_name (ServiceCall.clientError code msg)).map Prod.fst
      = Except.ok (none : Option String)
    ∧ fetch_secret secret_name region_name (ServiceCall.clientError code msg)
      = Except.ok (none,
          [if code = "ResourceNotFoundException" then not_found_msg secret_name
           else fetch_err_msg secret_name msg]) := by
  refine ⟨rfl, ?_, ?_⟩ <;>
    · unfold fetch_secret
      by_cases h : code = "ResourceNotFoundException" <;> simp [h, Except.map]

/-- C4: write mode is a round-trip identity: writing a value to any path
and reading that path back yields exactly the value written, the entire
file contents, with nothing appended. -/
theorem write_read_roundtrip (v path : String) (fs : String → Option String) :
    read_file (write_to_file v path fs) path = some v := by
  simp [read_file, write_to_file]

/-- C6: the lister returns exactly the concatenation of the names on
every page, in page order and entry order, with nothing filtered,
reordered, dropped or duplicated. -/
theorem list_all_secrets_concat (pages : List (List Secret)) :
    list_all_secrets pages = (pages.map (fun page => page.map Secret.Name)).flatten := by
  unfold list_all_secrets
  rw [foldl_append_eq_append_flatten, List.nil_append, List.map_flatten]

/-- C10: a successful remote call whose response lacks the SecretString
key does not return `none`: the subscript access raises an uncaught
KeyError, since only ClientError is caught. -/
theorem fetch_secret_missing_payload (secret_name region_name : String) :
    fetch_secret secret_name region_name (ServiceCall.success ⟨none⟩)
      = Except.error PyError.keyError := rfl

/-- Helper: the value of `fetch_secret` on a ClientError of any code. -/
theorem fetch_secret_clientError (secret_name region_name code msg : String) :
    fetch_secret secret_name region_name (ServiceCall.clientError code msg)
      = Except.ok (none,
          [if code = "ResourceNotFoundException" then not_found_msg secret_name
           else fetch_err_msg secret_name msg]) := by
  unfold fetch_secret
  by_cases h : code = "ResourceNotFoundException" <;> simp [h]

/-- C2: whenever the fetch stage returns `None` (a ClientError of either
kind), the orchestration prints the Exiting-program message and
terminates normally without invoking the output sink: the file system is
unchanged, the screen is not cleared, and no secret value is printed. -/
theorem main_exits_on_fetch_failure {J : Type} (loads : String → Option J)
    (dumps4 : J → String) (args_output : Option String)
    (pages_r : List (List Secret)) (getSecret_r : String → ServiceCall)
    (fs0 : String → Option String) (region sel name code msg : String)
    (rest : List String) (out0 : String)
    (hsel : select_secret (list_all_secrets pages_r) sel = Except.ok name)
    (hsvc : getSecret_r name = ServiceCall.clientError code msg) :
    main_with_region loads dumps4 args_output pages_r getSecret_r fs0 region
        (sel :: rest) out0
      = Except.ok
          { output := pre_fetch_output out0 (list_all_secrets pages_r)
              ++ ((if code = "ResourceNotFoundException" then not_found_msg name
                   else fetch_err_msg name msg) ++ "\n")
              ++ "Exiting program.\n",
            fs := fs0, screenCleared := false } := by
  rw [main_with_region_cons, hsel]
  show after_selection loads dumps4 args_output getSecret_r fs0 region name rest
      (pre_fetch_output out0 (list_all_secrets pages_r)) = _
  unfold after_selection
  rw [hsvc, fetch_secret_clientError]
  rfl

/-- Witness for C2 at a concrete run: one listed secret, selection 1,
the service reports ResourceNotFoundException. -/
theorem main_exits_on_fetch_failure_witness :
    select_secret (list_all_secrets [[⟨"s1"⟩]]) "1" = Except.ok "s1"
    ∧ main_with_region loads0 dumps0 none [[⟨"s1"⟩]]
          (fun _ => ServiceCall.clientError "ResourceNotFoundException" "m")
          fs_empty "eu-west-1" ["1"] ""
        = Except.ok
            { output := pre_fetch_output "" (list_all_secrets [[⟨"s1"⟩]])
                ++ ((if "ResourceNotFoundException" = "ResourceNotFoundException"
                     then not_found_msg "s1"
                     else fetch_err_msg "s1" "m") ++ "\n")
                ++ "Exiting program.\n",
              fs := fs_empty, screenCleared := false } :=
  ⟨rfl,
   main_exits_on_fetch_failure loads0 dumps0 none [[⟨"s1"⟩]]
     (fun _ => ServiceCall.clientError "ResourceNotFoundException" "m")
     fs_empty "eu-west-1" "1" "s1" "ResourceNotFoundException" "m" [] "" rfl rfl⟩

/-- C3: in display mode, for every fetched value, the printed output is
the header line followed by the JSON pretty-printing of the value when
it parses as JSON and by the value unchanged otherwise; the run then
blocks on the acknowledgment line and clears the screen. -/
theorem display_mode_output {J : Type} (loads : String → Option J) (dumps4 : J → String)
    (args_output : Option String) (pages_r : List (List Secret))
    (getSecret_r : String → ServiceCall) (fs0 : String → Option String)
    (region sel name v ack : String) (rest : List String) (out0 : String)
    (hout : optTruthy args_output = false)
    (hsel : select_secret (list_all_secrets pages_r) sel = Except.ok name)
    (hsvc : getSecret_r name = ServiceCall.success ⟨some v⟩) :
    main_with_region loads dumps4 args_output pages_r getSecret_r fs0 region
        (sel :: ack :: rest) out0
      = Except.ok { output := pre_fetch_output out0 (list_all_secrets pages_r)
                      ++ "\nFetched Secret Value:\n"
                      ++ json_render loads dumps4 v ++ "\n"
                      ++ "\nPress Enter to clear the screen...",
                    fs := fs0, screenCleared := true } := by
  rw [main_with_region_cons, hsel]
  show after_selection loads dumps4 args_output getSecret_r fs0 region name (ack :: rest)
      (pre_fetch_output out0 (list_all_secrets pages_r)) = _
  rw [after_selection_success loads dumps4 args_output getSecret_r fs0 region name
      (ack :: rest) (pre_fetch_output out0 (list_all_secrets pages_r)) v hsvc, hout]
  rw [if_neg Bool.false_ne_true]
  exact display_secret_cons loads dumps4 v
    (pre_fetch_output out0 (list_all_secrets pages_r)) ack rest fs0

/-- Witness for C3 at a concrete run in which the fetched value parses
as JSON under the concrete loads function. -/
theorem display_mode_output_witness :
    optTruthy (none : Option String) = false
    ∧ select_secret (list_all_secrets [[⟨"s1"⟩]]) "1" = Except.ok "s1"
    ∧ main_with_region loads1 dumps1 none [[⟨"s1"⟩]]
          (fun _ => ServiceCall.success ⟨some "json-secret"⟩) fs_empty "eu-west-1"
          ["1", ""] ""
        = Except.ok { output := pre_fetch_output "" (list_all_secrets [[⟨"s1"⟩]])
                        ++ "\nFetched Secret Value:\n"
                        ++ json_render loads1 dumps1 "json-secret" ++ "\n"
                        ++ "\nPress Enter to clear the screen...",
                      fs := fs_empty, screenCleared := true } :=
  ⟨rfl, rfl,
   display_mode_output loads1 dumps1 none [[⟨"s1"⟩]]
     (fun _ => ServiceCall.success ⟨some "json-secret"⟩) fs_empty "eu-west-1"
     "1" "s1" "json-secret" "" [] "" rfl rfl rfl⟩

/-- C9: in write mode with a successful fetch, the value is written to
the output file, a confirmation message naming the path is printed, the
screen is never cleared, and no acknowledgment line is consumed (the
result does not depend on the remaining stdin). -/
theorem write_mode_no_clear {J : Type} (loads : String → Option J) (dumps4 : J → String)
    (path : String) (pages_r : List (List Secret)) (getSecret_r : String → ServiceCall)
    (fs0 : String → Option String) (region sel name v : String)
    (rest : List String) (out0 : String)
    (hpath : path ≠ "")
    (hsel : select_secret (list_all_secrets pages_r) sel = Except.ok name)
    (hsvc : getSecret_r name = ServiceCall.success ⟨some v⟩) :
    main_with_region loads dumps4 (some path) pages_r getSecret_r fs0 region
        (sel :: rest) out0
      = Except.ok { output := pre_fetch_output out0 (list_all_secrets pages_r)
                      ++ "Secret value fetched and stored in " ++ path
                      ++ " successfully.\n",
                    fs := write_to_file v path fs0, screenCleared := false } := by
  rw [main_with_region_cons, hsel]
  show after_selection loads dumps4 (some path) getSecret_r fs0 region name rest
      (pre_fetch_output out0 (list_all_secrets pages_r)) = _
  rw [after_selection_success loads dumps4 (some path) getSecret_r fs0 region name
      rest (pre_fetch_output out0 (list_all_secrets pages_r)) v hsvc]
  have hb : optTruthy (some path) = true := by simp [optTruthy, hpath]
  rw [hb, if_pos rfl]
  rfl

/-- Witness for C9 at a concrete run writing to out.txt. -/
theorem write_mode_no_clear_witness :
    "out.txt" ≠ ""
    ∧ select_secret (list_all_secrets [[⟨"s1"⟩]]) "1" = Except.ok "s1"
    ∧ main_with_region loads0 dumps0 (some "out.txt") [[⟨"s1"⟩]]
          (fun _ => ServiceCall.success ⟨some "plain-text-secret"⟩) fs_empty
          "eu-west-1" ["1"] ""
        = Except.ok { output := pre_fetch_output "" (list_all_secrets [[⟨"s1"⟩]])
                        ++ "Secret value fetched and stored in " ++ "out.txt"
                        ++ " successfully.\n",
                      fs := write_to_file "plain-text-secret" "out.txt" fs_empty,
                      screenCleared := false } :=
  ⟨by decide, rfl,
   write_mode_no_clear loads0 dumps0 "out.txt" [[⟨"s1"⟩]]
     (fun _ => ServiceCall.success ⟨some "plain-text-secret"⟩) fs_empty
     "eu-west-1" "1" "s1" "plain-text-secret" [] "" (by decide) rfl rfl⟩

/-- C5: region resolution precedence: when the environment variable is
set and non-empty, that value is the region used for both the listing
pages and the fetch calls and the prompt is never invoked (stdin is
untouched and no prompt text is printed); when it is unset or empty, the
first stdin line entered at the prompt, even the empty string, becomes
the region used in both calls. -/
theorem region_resolution_precedence {J : Type} (loads : String → Option J)
    (dumps4 : J → String) (env : Env) (fs0 : String → Option String) :
    (optTruthy env.aws_default_region = true →
      main_run loads dumps4 env fs0
        = main_with_region loads dumps4 env.args_output
            (env.pages (env.aws_default_region.getD ""))
            (fun n => env.getSecret n (env.aws_default_region.getD ""))
            fs0 (env.aws_default_region.getD "") env.stdin "")
    ∧ (∀ l rest, optTruthy env.aws_default_region = false → env.stdin = l :: rest →
      main_run loads dumps4 env fs0
        = main_with_region loads dumps4 env.args_output (env.pages l)
            (fun n => env.getSecret n l) fs0 l rest "Enter the Region Name: ") := by
  constructor
  · intro h
    unfold main_run
    rw [h, if_pos rfl]
  · intro l rest h hstdin
    unfold main_run
    rw [h, hstdin]
    rfl

/-- Witness for C5: one run with the variable set, one with it unset. -/
theorem region_resolution_precedence_witness :
    (optTruthy env_region_set.aws_default_region = true
     ∧ main_run loads0 dumps0 env_region_set fs_empty
        = main_with_region loads0 dumps0 env_region_set.args_output
            (env_region_set.pages (env_region_set.aws_default_region.getD ""))
            (fun n => env_region_set.getSecret n (env_region_set.aws_default_region.getD ""))
            fs_empty (env_region_set.aws_default_region.getD "") env_region_set.stdin "")
    ∧ (optTruthy env_region_unset.aws_default_region = false
     ∧ main_run loads0 dumps0 env_region_unset fs_empty
        = main_with_region loads0 dumps0 env_region_unset.args_output
            (env_region_unset.pages "us-west-2")
            (fun n => env_region_unset.getSecret n "us-west-2")
            fs_empty "us-west-2" ["1"] "Enter the Region Name: ") :=
  ⟨⟨rfl, (region_resolution_precedence loads0 dumps0 env_region_set fs_empty).1 rfl⟩,
   ⟨rfl, (region_resolution_precedence loads0 dumps0 env_region_unset fs_empty).2
      "us-west-2" ["1"] rfl rfl⟩⟩

/-- C7 counterexample: with the remote service holding zero secrets and
a numeric selection entered, the lister does return the empty sequence,
but the run terminates with an uncaught IndexError rather than
gracefully. -/
theorem empty_listing_crash_concrete :
    list_all_secrets (env_zero_secrets.pages "eu-west-1") = []
    ∧ main_run loads0 dumps0 env_zero_secrets fs_empty
        = Except.error PyError.indexError :=
  ⟨rfl, rfl⟩

/-- C7 amended: if the remote service returns zero secrets, the lister
returns an empty sequence and the program then crashes at the selection
step with an uncaught IndexError for any numeric selection input, rather
than terminating cleanly. -/
theorem empty_listing_crashes {J : Type} (loads : String → Option J)
    (dumps4 : J → String) (env : Env) (fs0 : String → Option String)
    (sel : String) (rest : List String) (n : Int)
    (htr : optTruthy env.aws_default_region = true)
    (hstdin : env.stdin = sel :: rest)
    (hn : py_int sel = some n)
    (hempty : list_all_secrets (env.pages (env.aws_default_region.getD "")) = []) :
    main_run loads dumps4 env fs0 = Except.error PyError.indexError := by
  unfold main_run
  rw [htr, if_pos rfl, hstdin, main_with_region_cons, hempty,
    select_secret_some [] sel n hn,
    py_index_err [] (n - 1)
      (by simp only [List.length_nil, Nat.cast_zero, neg_zero]; omega)]

/-- Witness for C7 amended at a concrete zero-secret run. -/
theorem empty_listing_crashes_witness :
    optTruthy env_zero_secrets2.aws_default_region = true
    ∧ py_int "3" = some 3
    ∧ list_all_secrets (env_zero_secrets2.pages
        (env_zero_secrets2.aws_default_region.getD "")) = []
    ∧ main_run loads0 dumps0 env_zero_secrets2 fs_empty
        = Except.error PyError.indexError :=
  ⟨rfl, rfl, rfl,
   empty_listing_crashes loads0 dumps0 env_zero_secrets2 fs_empty "3" [] 3
     rfl rfl rfl rfl⟩

/-- C8 counterexample: with two listed secrets, the selection input 0 is
numeric and out of range for the 1-based menu, yet the run terminates
normally: Python negative indexing selects the last listed name, whose
value is fetched and written. -/
theorem selection_zero_selects_last :
    py_int "0" = some 0
    ∧ (main_run loads0 dumps0 env_select_zero fs_empty).map
        (fun r => (r.fs "out.txt", r.screenCleared))
      = Except.ok (some "secret-of-beta", false) :=
  ⟨rfl, rfl⟩

/-- C8 amended: at the selection step, non-numeric input is a fatal
uncaught ValueError; a numeric value n greater than the list length or
at most minus the list length is a fatal uncaught IndexError; n between
1 and the length selects the n-th listed name (1-based) and passes it to
the fetch stage; and n between 1 minus the length and 0 does not crash:
Python negative indexing selects the name at zero-based position
n - 1 + length, which is passed to the fetch stage. -/
theorem selection_semantics_amended {J : Type} (loads : String → Option J)
    (dumps4 : J → String) (args_output : Option String)
    (pages_r : List (List Secret)) (getSecret_r : String → ServiceCall)
    (fs0 : String → Option String) (region sel : String) (rest : List String)
    (out0 : String) :
    (py_int sel = none →
      main_with_region loads dumps4 args_output pages_r getSecret_r fs0 region
          (sel :: rest) out0
        = Except.error PyError.valueError)
    ∧ (∀ n : Int, py_int sel = some n →
        (((list_all_secrets pages_r).length : Int) < n
          ∨ n ≤ -((list_all_secrets pages_r).length : Int)) →
      main_with_region loads dumps4 args_output pages_r getSecret_r fs0 region
          (sel :: rest) out0
        = Except.error PyError.indexError)
    ∧ (∀ n : Int, py_int sel = some n → 1 ≤ n →
        n ≤ ((list_all_secrets pages_r).length : Int) →
      ∃ hh : (n - 1).toNat < (list_all_secrets pages_r).length,
        main_with_region loads dumps4 args_output pages_r getSecret_r fs0 region
            (sel :: rest) out0
          = after_selection loads dumps4 args_output getSecret_r fs0 region
              ((list_all_secrets pages_r).get ⟨(n - 1).toNat, hh⟩) rest
              (pre_fetch_output out0 (list_all_secrets pages_r)))
    ∧ (∀ n : Int, py_int sel = some n →
        1 - ((list_all_secrets pages_r).length : Int) ≤ n → n ≤ 0 →
      ∃ hh : (n - 1 + ((list_all_secrets pages_r).length : Int)).toNat
          < (list_all_secrets pages_r).length,
        main_with_region loads dumps4 args_output pages_r getSecret_r fs0 region
            (sel :: rest) out0
          = after_selection loads dumps4 args_output getSecret_r fs0 region
              ((list_all_secrets pages_r).get
                ⟨(n - 1 + ((list_all_secrets pages_r).length : Int)).toNat, hh⟩) rest
              (pre_fetch_output out0 (list_all_secrets pages_r))) := by
  refine ⟨?_, ?_, ?_, ?_⟩
  · intro h
    rw [main_with_region_cons, select_secret_none _ _ h]
  · intro n h hoob
    rw [main_with_region_cons, select_secret_some _ _ n h,
      py_index_err _ _ (by omega)]
  · intro n h h1 h2
    obtain ⟨hh, heq⟩ := py_index_ok_nonneg (list_all_secrets pages_r) (n - 1)
      (by omega) (by omega)
    refine ⟨hh, ?_⟩
    rw [main_with_region_cons, select_secret_some _ _ n h, heq]
  · intro n h h1 h2
    obtain ⟨hh, heq⟩ := py_index_ok_neg (list_all_secrets pages_r) (n - 1)
      (by omega) (by omega)
    refine ⟨hh, ?_⟩
    rw [main_with_region_cons, select_secret_some _ _ n h, heq]

/-- Witness for C8 amended: the in-range case at two listed secrets and
selection 2. -/
theorem selection_semantics_amended_witness :
    py_int "2" = some 2
    ∧ (1 : Int) ≤ 2
    ∧ (2 : Int) ≤ ((list_all_secrets [[⟨"alpha"⟩, ⟨"beta"⟩]]).length : Int)
    ∧ ∃ hh : ((2 : Int) - 1).toNat < (list_all_secrets [[⟨"alpha"⟩, ⟨"beta"⟩]]).length,
        main_with_region loads0 dumps0 none [[⟨"alpha"⟩, ⟨"beta"⟩]]
            (fun _ => ServiceCall.clientError "X" "m") fs_empty "eu-west-1"
            ["2"] ""
          = after_selection loads0 dumps0 none
              (fun _ => ServiceCall.clientError "X" "m") fs_empty "eu-west-1"
              ((list_all_secrets [[⟨"alpha"⟩, ⟨"beta"⟩]]).get ⟨((2 : Int) - 1).toNat, hh⟩)
              [] (pre_fetch_output "" (list_all_secrets [[⟨"alpha"⟩, ⟨"beta"⟩]])) :=
  ⟨rfl, by decide, by decide,
   (selection_semantics_amended loads0 dumps0 none [[⟨"alpha"⟩, ⟨"beta"⟩]]
      (fun _ => ServiceCall.clientError "X" "m") fs_empty "eu-west-1" "2" [] "").2.2.1
     2 rfl (by decide) (by decide)⟩
